import Mathlib

/-!
Verification of the gozulipbot message layer (message.go).

The Go code is shallowly embedded: JSON values are an inductive `Json`,
`encoding/json` decoding of the concrete target types used by the code is
modelled by explicit decoders returning `Except String α` (Go's `error` is a
string message; `nil` error is `Except.ok`), and the bot operations return a
`SendOutcome` that is either an error returned before the transport is used,
or an invocation of the transport collaborator `client.Do` carrying the
constructed request.
-/

namespace Gozulipbot

/-- A JSON value. Numbers are restricted to integers, which covers every
field the code decodes (all numeric fields are Go `int`). -/
inductive Json where
  | str (s : String)
  | num (n : Int)
  | bool (b : Bool)
  | null
  | arr (elems : List Json)
  | obj (fields : List (String × Json))

/-- Lookup of a key in a decoded JSON object. Go's `encoding/json` applies
object keys in input order into a map (or struct), so a duplicated key ends
with the last occurrence: the lookup returns the last binding. -/
def jsonLookup (fields : List (String × Json)) (k : String) : Option Json :=
  ((fields.filter (fun p => p.fst = k)).getLast?).map Prod.snd

/-- Message (message.go): metadata to post on Zulip; public when Topic is
set, private when Emails is non-empty. -/
structure Message where
  Stream  : String
  Topic   : String
  Emails  : List String
  Content : String

/-- User (message.go): recipient identity. -/
structure User where
  Domain        : String
  Email         : String
  FullName      : String
  ID            : Int
  IsMirrorDummy : Bool
  ShortName     : String

/-- DisplayRecipient (message.go): either a list of users (private message)
or a topic string (stream message). -/
structure DisplayRecipient where
  Users : List User
  Topic : String

/-- EventMessage (message.go): the decoded representation of one inbound
event's message. Go's `Type` field is written `Type'` because `Type` is a
Lean keyword. -/
structure EventMessage where
  AvatarURL        : String
  Client           : String
  Content          : String
  ContentType      : String
  DisplayRecipient : DisplayRecipient
  GravatarHash     : String
  ID               : Int
  RecipientID      : Int
  SenderDomain     : String
  SenderEmail      : String
  SenderFullName   : String
  SenderID         : Int
  SenderShortName  : String
  Subject          : String
  SubjectLinks     : List Json
  Timestamp        : Int
  Type'            : String

/-- Bot fields, as constructed in the package's test file (`getTestBot`):
Email, APIKey, Streams, and a transport client. The client is not a field
here: its single operation `Do` is modelled by the `SendOutcome.send`
constructor below. -/
structure Bot where
  Email   : String
  APIKey  : String
  Streams : List String

/-- The request handed to the transport. `constructRequest` (bot.go, outside
this core) packs method, endpoint and the url-encoded form body; the form
keys set by `constructMessageRequest` are carried as named fields
(`subject` is `none` when the `subject` key is not set). The form keys
`type` and `to` are named `mtype` and `toValue` because `type` and `to` are
Lean keywords. -/
structure Request where
  method   : String
  endpoint : String
  mtype    : String
  toValue  : String
  content  : String
  subject  : Option String

/-- Outcome of a bot send operation: either an error returned to the caller
before the transport collaborator is used, or an invocation of the
transport's `Do` with the constructed request. -/
inductive SendOutcome where
  | error (msg : String)
  | send (req : Request)

/-- Go `json.Unmarshal` into a `string`: succeeds exactly on a JSON string;
a JSON null is a no-op that keeps the zero value `""`. -/
def unmarshalString : Json → Except String String
  | .str s  => .ok s
  | .null   => .ok ""
  | .num _  => .error "json: cannot unmarshal number into Go value of type string"
  | .bool _ => .error "json: cannot unmarshal bool into Go value of type string"
  | .arr _  => .error "json: cannot unmarshal array into Go value of type string"
  | .obj _  => .error "json: cannot unmarshal object into Go value of type string"

/-- Decode one struct field of type `string`: an absent key or a null value
keeps the zero value `""`; a present non-string, non-null value is an error. -/
def decodeStringField (fields : List (String × Json)) (k : String) : Except String String :=
  match jsonLookup fields k with
  | none => .ok ""
  | some j => unmarshalString j

/-- Decode one struct field of type `int`. -/
def decodeIntField (fields : List (String × Json)) (k : String) : Except String Int :=
  match jsonLookup fields k with
  | none => .ok 0
  | some (.num n) => .ok n
  | some .null => .ok 0
  | some _ => .error ("json: cannot unmarshal value into field " ++ k ++ " of type int")

/-- Decode one struct field of type `bool`. -/
def decodeBoolField (fields : List (String × Json)) (k : String) : Except String Bool :=
  match jsonLookup fields k with
  | none => .ok false
  | some (.bool b) => .ok b
  | some .null => .ok false
  | some _ => .error ("json: cannot unmarshal value into field " ++ k ++ " of type bool")

/-- Go `json.Unmarshal` of one element into a `User` struct: a JSON object
decodes field by field (absent keys keep zero values), a JSON null is a
no-op leaving the zero `User`, anything else is an error. -/
def unmarshalUser : Json → Except String User
  | .obj fs => do
    let domain ← decodeStringField fs "domain"
    let email ← decodeStringField fs "email"
    let fullName ← decodeStringField fs "full_name"
    let id ← decodeIntField fs "id"
    let isMirrorDummy ← decodeBoolField fs "is_mirror_dummy"
    let shortName ← decodeStringField fs "short_name"
    .ok ⟨domain, email, fullName, id, isMirrorDummy, shortName⟩
  | .null => .ok ⟨"", "", "", 0, false, ""⟩
  | _ => .error "json: cannot unmarshal value into Go value of type gozulipbot.User"

/-- Decode the elements of a JSON array into users, failing at the first bad
element as Go's array decoding does. -/
def unmarshalUserElems : List Json → Except String (List User)
  | [] => .ok []
  | j :: rest =>
    match unmarshalUser j with
    | .error e => .error e
    | .ok u =>
      match unmarshalUserElems rest with
      | .error e => .error e
      | .ok us => .ok (u :: us)

/-- Go `json.Unmarshal` into a `[]User`: succeeds on a JSON array (the
slice is resized to the array's length, so an empty array gives an empty
slice) and on null (the slice is set to nil); anything else is an error. -/
def unmarshalUsers : Json → Except String (List User)
  | .arr elems => unmarshalUserElems elems
  | .null => .ok []
  | .str _  => .error "json: cannot unmarshal string into Go value of type []gozulipbot.User"
  | .num _  => .error "json: cannot unmarshal number into Go value of type []gozulipbot.User"
  | .bool _ => .error "json: cannot unmarshal bool into Go value of type []gozulipbot.User"
  | .obj _  => .error "json: cannot unmarshal object into Go value of type []gozulipbot.User"

/-- DisplayRecipient.UnmarshalJSON (message.go, lines 57-68): first try to
decode the raw value as a string and set Topic; otherwise try to decode it
as a `[]User` and set Users; if both fail, return the second attempt's
error. The untouched field keeps its zero value. -/
def DisplayRecipient.unmarshal (j : Json) : Except String DisplayRecipient :=
  match unmarshalString j with
  | .ok topic => .ok ⟨[], topic⟩
  | .error _ =>
    match unmarshalUsers j with
    | .ok users => .ok ⟨users, ""⟩
    | .error e => .error e

/-- Decode the `display_recipient` struct field: an absent key keeps the
zero value; a present value (null included) goes through the custom
`DisplayRecipient.unmarshal`. -/
def decodeDisplayRecipientField (fields : List (String × Json)) : Except String DisplayRecipient :=
  match jsonLookup fields "display_recipient" with
  | none => .ok ⟨[], ""⟩
  | some j => DisplayRecipient.unmarshal j

/-- Decode a struct field of type `[]interface\x7b\x7d` (subject_links): any
JSON array succeeds, kept as raw values; null or absent keeps nil. -/
def decodeJsonListField (fields : List (String × Json)) (k : String) : Except String (List Json) :=
  match jsonLookup fields k with
  | none => .ok []
  | some (.arr elems) => .ok elems
  | some .null => .ok []
  | some _ => .error ("json: cannot unmarshal value into field " ++ k ++ " of type []interface")

/-- The zero EventMessage value. -/
def EventMessage.zero : EventMessage :=
  ⟨"", "", "", "", ⟨[], ""⟩, "", 0, 0, "", "", "", 0, "", "", [], 0, ""⟩

/-- Go `json.Unmarshal` into an `EventMessage` struct, field tag by field
tag (message.go, lines 23-41). Fields are decoded in declaration order;
for an input with a single ill-typed key this agrees with Go, which reports
the error of that key. -/
def unmarshalEventMessage : Json → Except String EventMessage
  | .obj fs => do
    let avatarURL ← decodeStringField fs "avatar_url"
    let client ← decodeStringField fs "client"
    let content ← decodeStringField fs "content"
    let contentType ← decodeStringField fs "content_type"
    let displayRecipient ← decodeDisplayRecipientField fs
    let gravatarHash ← decodeStringField fs "gravatar_hash"
    let id ← decodeIntField fs "id"
    let recipientID ← decodeIntField fs "recipient_id"
    let senderDomain ← decodeStringField fs "sender_domain"
    let senderEmail ← decodeStringField fs "sender_email"
    let senderFullName ← decodeStringField fs "sender_full_name"
    let senderID ← decodeIntField fs "sender_id"
    let senderShortName ← decodeStringField fs "sender_short_name"
    let subject ← decodeStringField fs "subject"
    let subjectLinks ← decodeJsonListField fs "subject_links"
    let timestamp ← decodeIntField fs "timestamp"
    let mtype ← decodeStringField fs "type"
    .ok ⟨avatarURL, client, content, contentType, displayRecipient, gravatarHash,
         id, recipientID, senderDomain, senderEmail, senderFullName, senderID,
         senderShortName, subject, subjectLinks, timestamp, mtype⟩
  | .null => .ok EventMessage.zero
  | _ => .error "json: cannot unmarshal value into Go value of type gozulipbot.EventMessage"

/-- The joining loop of constructMessageRequest (message.go, lines 162-169):
append each email, with a trailing ", " after every element but the last. -/
def appendEmails : List String → String
  | [] => ""
  | [e] => e
  | e :: rest => e ++ ", " ++ appendEmails rest

/-- constructMessageRequest (message.go, lines 151-180): compute the form
values `type`, `to`, `content` and (for a stream message) `subject`, and
build the POST request to the `messages` endpoint. `to` starts as
`m.Stream`; with exactly one email it is replaced by that email; with more
than one email the joined emails are appended onto it with `+=`. -/
def constructMessageRequest (m : Message) : Request :=
  let mtype := if m.Emails.length ≠ 0 then "private" else "stream"
  let toV :=
    match m.Emails with
    | [] => m.Stream
    | [e] => e
    | e :: e2 :: rest => m.Stream ++ appendEmails (e :: e2 :: rest)
  { method := "POST", endpoint := "messages",
    mtype := mtype, toValue := toV, content := m.Content,
    subject := if mtype = "stream" then some m.Topic else none }

/-- Bot.PrivateMessage (message.go, lines 97-107): error when Emails is
empty, otherwise construct the request and invoke the transport's Do. -/
def Bot.privateMessage (_b : Bot) (m : Message) : SendOutcome :=
  if m.Emails.length = 0 then .error "there must be at least one recipient"
  else .send (constructMessageRequest m)

/-- Bot.Message (message.go, lines 72-94): validate Content, re-route to
PrivateMessage when any emails are set, otherwise validate Stream and Topic
and send a stream message. -/
def Bot.message (b : Bot) (m : Message) : SendOutcome :=
  if m.Content = "" then .error "content cannot be empty"
  else if m.Emails.length ≠ 0 then b.privateMessage m
  else if m.Stream = "" then .error "stream cannot be empty"
  else if m.Topic = "" then .error "topic cannot be empty"
  else .send (constructMessageRequest m)

/-- privateResponseList (message.go, lines 137-148): the emails of the
users of the event's DisplayRecipient other than the bot's own Email, in
order; an error when that list is empty. -/
def Bot.privateResponseList (b : Bot) (e : EventMessage) : Except String (List String) :=
  let out := (e.DisplayRecipient.Users.filter (fun u => u.Email ≠ b.Email)).map User.Email
  if out.length = 0 then .error "EventMessage had no Users within the DisplayRecipient"
  else .ok out

mutual

/-- Rendering of a raw JSON value the way Go's fmt `%v` prints the
corresponding decoded `interface\x7b\x7d` value, used only inside the
"not understood" error text. -/
def jsonGoRepr : Json → String
  | .str s => s
  | .num n => toString n
  | .bool b => if b then "true" else "false"
  | .null => "<nil>"
  | .arr elems => "[" ++ String.intercalate " " (jsonGoReprList elems) ++ "]"
  | .obj fields => "map[" ++ String.intercalate " " (jsonGoReprFields fields) ++ "]"

/-- Rendering of a list of raw JSON values, element by element. -/
def jsonGoReprList : List Json → List String
  | [] => []
  | j :: rest => jsonGoRepr j :: jsonGoReprList rest

/-- Rendering of the bindings of a JSON object, `key:value` as Go prints a
map. -/
def jsonGoReprFields : List (String × Json) → List String
  | [] => []
  | (k, v) :: rest => (k ++ ":" ++ jsonGoRepr v) :: jsonGoReprFields rest

end

/-- Go fmt `%v` of a User: the field values in order, space-separated,
in braces. -/
def userGoRepr (u : User) : String :=
  "\x7b" ++ u.Domain ++ " " ++ u.Email ++ " " ++ u.FullName ++ " " ++ toString u.ID
    ++ " " ++ (if u.IsMirrorDummy then "true" else "false") ++ " " ++ u.ShortName ++ "\x7d"

/-- Go fmt `%v` of a DisplayRecipient: the Users slice then the Topic. -/
def displayRecipientGoRepr (d : DisplayRecipient) : String :=
  "\x7b[" ++ String.intercalate " " (d.Users.map userGoRepr) ++ "] " ++ d.Topic ++ "\x7d"

/-- Go fmt `%v` of an EventMessage: all field values in declaration order,
space-separated, in braces. -/
def eventMessageGoRepr (e : EventMessage) : String :=
  "\x7b" ++ e.AvatarURL ++ " " ++ e.Client ++ " " ++ e.Content ++ " " ++ e.ContentType
    ++ " " ++ displayRecipientGoRepr e.DisplayRecipient ++ " " ++ e.GravatarHash
    ++ " " ++ toString e.ID ++ " " ++ toString e.RecipientID ++ " " ++ e.SenderDomain
    ++ " " ++ e.SenderEmail ++ " " ++ e.SenderFullName ++ " " ++ toString e.SenderID
    ++ " " ++ e.SenderShortName ++ " " ++ e.Subject
    ++ " [" ++ String.intercalate " " (jsonGoReprList e.SubjectLinks) ++ "]"
    ++ " " ++ toString e.Timestamp ++ " " ++ e.Type' ++ "\x7d"

/-- Bot.Respond (message.go, lines 111-133): reject a blank response; build
a Message with Stream from the event's DisplayRecipient.Topic and Topic
from the event's Subject; when the Topic is non-empty, send it through
Bot.Message; otherwise when the Stream is empty, fill Emails from
privateResponseList and send through Bot.Message; otherwise fail with the
"not understood" error carrying the event's contents. -/
def Bot.respond (b : Bot) (e : EventMessage) (response : String) : SendOutcome :=
  if response = "" then .error "Message response cannot be blank"
  else
    let m : Message :=
      { Stream := e.DisplayRecipient.Topic, Topic := e.Subject,
        Emails := [], Content := response }
    if m.Topic ≠ "" then b.message m
    else if m.Stream = "" then
      match b.privateResponseList e with
      | .error err => .error err
      | .ok emails => b.message { m with Emails := emails }
    else .error ("EventMessage is not understood: " ++ eventMessageGoRepr e ++ "\n")

/-- Go `json.Unmarshal` of one array element into a
`map[string]json.RawMessage`: a JSON object gives its raw bindings, null
leaves a nil map, anything else is an error. -/
def unmarshalRawObj : Json → Except String (List (String × Json))
  | .obj fs => .ok fs
  | .null => .ok []
  | _ => .error "json: cannot unmarshal value into Go value of type map[string]json.RawMessage"

/-- Decode the elements of the `events` array, failing at the first element
that is not an object. -/
def unmarshalRawObjs : List Json → Except String (List (List (String × Json)))
  | [] => .ok []
  | j :: rest =>
    match unmarshalRawObj j with
    | .error e => .error e
    | .ok fs =>
      match unmarshalRawObjs rest with
      | .error e => .error e
      | .ok others => .ok (fs :: others)

/-- Go `json.Unmarshal` of the raw `events` value into
`[]map[string]json.RawMessage`. An absent key gives a nil `RawMessage`, and
unmarshalling empty input fails with "unexpected end of JSON input"; a JSON
null sets the slice to nil (no error). -/
def unmarshalEventsField : Option Json → Except String (List (List (String × Json)))
  | none => .error "unexpected end of JSON input"
  | some (.arr elems) => unmarshalRawObjs elems
  | some .null => .ok []
  | some _ => .error "json: cannot unmarshal value into Go value of type []map[string]json.RawMessage"

/-- The loop body of ParseEventMessages for one event object: take its raw
`message` value (absent means nil raw bytes, which fail to unmarshal with
"unexpected end of JSON input") and decode it as an EventMessage. -/
def decodeEventObj (ev : List (String × Json)) : Except String EventMessage :=
  match jsonLookup ev "message" with
  | none => .error "unexpected end of JSON input"
  | some jm => unmarshalEventMessage jm

/-- The loop of ParseEventMessages (message.go, lines 196-204): decode each
event's message in order, returning the first decode error and no list. -/
def decodeEvents : List (List (String × Json)) → Except String (List EventMessage)
  | [] => .ok []
  | ev :: rest =>
    match decodeEventObj ev with
    | .error e => .error e
    | .ok msg =>
      match decodeEvents rest with
      | .error e => .error e
      | .ok msgs => .ok (msg :: msgs)

/-- ParseEventMessages (message.go, lines 182-207): decode the top level as
a `map[string]json.RawMessage` (an object; null leaves a nil map whose
lookups are all absent), unmarshal its raw `events` value into a list of
raw event objects, then decode each event's `message`. -/
def parseEventMessages (j : Json) : Except String (List EventMessage) :=
  match j with
  | .obj fs =>
    (match unmarshalEventsField (jsonLookup fs "events") with
     | .error e => .error e
     | .ok events => decodeEvents events)
  | .null => .error "unexpected end of JSON input"
  | _ => .error "json: cannot unmarshal value into Go value of type map[string]json.RawMessage"

/-! Sample values, mirroring the package's test fixture `getTestBot`. -/

/-- The bot of the package's test fixture. -/
def testBot : Bot :=
  ⟨"testbot@example.com", "apikey", ["stream a", "test bots"]⟩

/-- A user record carrying the bot's own email. -/
def sampleUserBot : User := ⟨"", "testbot@example.com", "", 0, false, ""⟩

/-- A user record carrying another email. -/
def sampleUserOther : User := ⟨"", "other@example.com", "", 0, false, ""⟩

/-- An event shaped like a private message: no subject, Users variant. -/
def privateEvent : EventMessage :=
  { EventMessage.zero with DisplayRecipient := ⟨[sampleUserBot, sampleUserOther], ""⟩ }

/-- An event of the unrecognized shape: empty subject, Topic variant set. -/
def ambiguousEvent : EventMessage :=
  { EventMessage.zero with DisplayRecipient := ⟨[], "general"⟩ }

/-! Helper lemmas shared by the event-parsing theorems. -/

/-- Decoding an events array whose elements are all objects yields exactly
their bindings. -/
theorem unmarshalRawObjs_map_obj (l : List (List (String × Json))) :
    unmarshalRawObjs (l.map Json.obj) = .ok l := by
  induction l with
  | nil => rfl
  | cons ev rest ih => simp [unmarshalRawObjs, unmarshalRawObj, ih]

/-- The message-decoding loop stops at the first failing event and returns
its error. -/
theorem decodeEvents_first_error (good : List (List (String × Json)))
    (bad : List (String × Json)) (rest : List (List (String × Json))) (err : String)
    (hg : ∀ ev ∈ good, ∃ msg, decodeEventObj ev = .ok msg)
    (hb : decodeEventObj bad = .error err) :
    decodeEvents (good ++ bad :: rest) = .error err := by
  induction good with
  | nil => simp [decodeEvents, hb]
  | cons ev gs ih =>
    obtain ⟨msg, hok⟩ := hg ev (by simp)
    have hrest := ih (fun e he => hg e (by simp [he]))
    simp [decodeEvents, hok, hrest]

/-! Claim theorems. -/

/-- Claim C1 (code bug): for a Message with two or more Emails the code does
NOT set the `to` form value to the comma-space-joined emails alone: the
joining loop starts from `to := m.Stream`, so a non-empty Stream is
prepended. At Stream "general" and Emails ["a\x40x.com", "b\x40x.com"] the
`to` value is "generala\x40x.com, b\x40x.com", not "a\x40x.com, b\x40x.com"
as the claim states for every Stream value. -/
theorem constructMessageRequest_stream_prefix_bug :
    (constructMessageRequest ⟨"general", "", ["a@x.com", "b@x.com"], "hi"⟩).toValue
        = "generala@x.com, b@x.com" ∧
      (constructMessageRequest ⟨"general", "", ["a@x.com", "b@x.com"], "hi"⟩).toValue
        ≠ "a@x.com, b@x.com" :=
  ⟨rfl, by decide⟩

/-- Claim C2 (corrected): when the `events` key maps to an empty array,
ParseEventMessages returns the empty list and no error; but when the key is
absent, the nil raw value fails to unmarshal and the function returns the
"unexpected end of JSON input" error instead of an empty sequence. -/
theorem parseEventMessages_empty_or_absent_events (fs : List (String × Json)) :
    (jsonLookup fs "events" = some (Json.arr []) →
      parseEventMessages (Json.obj fs) = .ok []) ∧
    (jsonLookup fs "events" = none →
      parseEventMessages (Json.obj fs) = .error "unexpected end of JSON input") := by
  constructor
  · intro h
    simp [parseEventMessages, h, unmarshalEventsField, unmarshalRawObjs, decodeEvents]
  · intro h
    simp [parseEventMessages, h, unmarshalEventsField]

/-- Claim C2 witness: on the object with `events` mapped to an empty array,
the parse yields the empty list without error. -/
theorem parseEventMessages_empty_events_witness :
    parseEventMessages (Json.obj [("events", Json.arr [])]) = .ok [] :=
  (parseEventMessages_empty_or_absent_events [("events", Json.arr [])]).1 rfl

/-- Claim C2 counterexample: on the concrete top-level object with no
`events` key the parse returns an error, not an empty sequence. -/
theorem parseEventMessages_absent_events_counterexample :
    parseEventMessages (Json.obj []) = .error "unexpected end of JSON input" :=
  rfl

/-- Claim C3: Respond's 3-way classification in branch order: blank reply
fails first; then a non-empty Subject sends a stream message with Stream
from DisplayRecipient.Topic and Topic from Subject; then an empty stream
takes the private path via privateResponseList; otherwise the "not
understood" error with the event contents. -/
theorem respond_branch_order (b : Bot) (e : EventMessage) (r : String) :
    (r = "" → b.respond e r = .error "Message response cannot be blank") ∧
    (r ≠ "" → e.Subject ≠ "" →
      b.respond e r = b.message ⟨e.DisplayRecipient.Topic, e.Subject, [], r⟩) ∧
    (r ≠ "" → e.Subject = "" → e.DisplayRecipient.Topic = "" →
      b.respond e r =
        (match b.privateResponseList e with
         | .error err => .error err
         | .ok emails => b.message ⟨e.DisplayRecipient.Topic, e.Subject, emails, r⟩)) ∧
    (r ≠ "" → e.Subject = "" → e.DisplayRecipient.Topic ≠ "" →
      b.respond e r
        = .error ("EventMessage is not understood: " ++ eventMessageGoRepr e ++ "\n")) := by
  refine ⟨fun h => ?_, fun h1 h2 => ?_, fun h1 h2 h3 => ?_, fun h1 h2 h3 => ?_⟩
  · simp [Bot.respond, h]
  · simp [Bot.respond, h1, h2]
  · simp [Bot.respond, h1, h2, h3]
  · simp [Bot.respond, h1, h2, h3]

/-- Claim C3 witness: on an event with empty Subject and non-empty
recipient Topic the unrecognized-shape branch is taken. -/
theorem respond_branch_order_witness :
    Bot.respond testBot ambiguousEvent "hi"
      = .error ("EventMessage is not understood: " ++ eventMessageGoRepr ambiguousEvent ++ "\n") :=
  (respond_branch_order testBot ambiguousEvent "hi").2.2.2 (by decide) rfl (by decide)

/-- Unfolding of privateResponseList: the error on an empty recipient list,
the list itself otherwise. -/
theorem privateResponseList_spec (b : Bot) (e : EventMessage) :
    b.privateResponseList e =
      if ((e.DisplayRecipient.Users.filter (fun u => u.Email ≠ b.Email)).map User.Email) = []
      then .error "EventMessage had no Users within the DisplayRecipient"
      else .ok ((e.DisplayRecipient.Users.filter (fun u => u.Email ≠ b.Email)).map User.Email) := by
  simp only [Bot.privateResponseList, List.length_eq_zero]

/-- Claim C4: on the private-reply path the recipients are the users of the
event's DisplayRecipient whose email differs from the bot's Email, in
order; an empty list yields the "no recipients" error without sending, and
otherwise a private message to exactly those emails with the reply text is
handed to the transport. -/
theorem respond_private_path (b : Bot) (e : EventMessage) (r : String)
    (hr : r ≠ "") (hs : e.Subject = "") (ht : e.DisplayRecipient.Topic = "") :
    ((e.DisplayRecipient.Users.filter (fun u => u.Email ≠ b.Email)).map User.Email = [] →
      b.respond e r = .error "EventMessage had no Users within the DisplayRecipient") ∧
    ((e.DisplayRecipient.Users.filter (fun u => u.Email ≠ b.Email)).map User.Email ≠ [] →
      b.respond e r = .send (constructMessageRequest
        ⟨"", "", (e.DisplayRecipient.Users.filter (fun u => u.Email ≠ b.Email)).map User.Email,
          r⟩)) := by
  constructor
  · intro hout
    simp only [ne_eq, decide_not] at hout
    simp [Bot.respond, privateResponseList_spec, hr, hs, ht, hout]
  · intro hout
    simp at hout
    have hnall : ¬∀ a ∈ e.DisplayRecipient.Users, a.Email = b.Email := by simpa using hout
    simp [Bot.respond, Bot.message, Bot.privateMessage, privateResponseList_spec,
      hr, hs, ht, hout, hnall]

/-- Claim C4 witness: an event whose Users are the bot and one other user
produces a private send addressed to the other user only. -/
theorem respond_private_path_witness :
    Bot.respond testBot privateEvent "hi"
      = .send (constructMessageRequest ⟨"", "", ["other@example.com"], "hi"⟩) :=
  (respond_private_path testBot privateEvent "hi" (by decide) rfl rfl).2 (by decide)

/-- Claim C5: the DisplayRecipient decoder tries the string decode first
(success populates Topic), then the user-list decode (success populates
Users), and when both fail it returns the second attempt's error. -/
theorem displayRecipient_decode_order (j : Json) :
    (∀ t, unmarshalString j = .ok t → DisplayRecipient.unmarshal j = .ok ⟨[], t⟩) ∧
    (∀ e1 us, unmarshalString j = .error e1 → unmarshalUsers j = .ok us →
      DisplayRecipient.unmarshal j = .ok ⟨us, ""⟩) ∧
    (∀ e1 e2, unmarshalString j = .error e1 → unmarshalUsers j = .error e2 →
      DisplayRecipient.unmarshal j = .error e2) := by
  refine ⟨fun t h => ?_, fun e1 us h1 h2 => ?_, fun e1 e2 h1 h2 => ?_⟩
  · simp [DisplayRecipient.unmarshal, h]
  · simp [DisplayRecipient.unmarshal, h1, h2]
  · simp [DisplayRecipient.unmarshal, h1, h2]

/-- Claim C5 witness: a JSON number fails both decodes and the reported
error is the user-list decode's error, not the string decode's. -/
theorem displayRecipient_decode_order_witness :
    DisplayRecipient.unmarshal (Json.num 3)
      = .error "json: cannot unmarshal number into Go value of type []gozulipbot.User" :=
  (displayRecipient_decode_order (Json.num 3)).2.2
    "json: cannot unmarshal number into Go value of type string"
    "json: cannot unmarshal number into Go value of type []gozulipbot.User" rfl rfl

/-- Claim C6: on well-formed input exactly one variant is populated: a JSON
string gives Topic equal to that string with Users empty, and a JSON array
of decodable user records (the empty array included) gives Users equal to
the decoded sequence with Topic empty. -/
theorem displayRecipient_decode_variants :
    (∀ s, DisplayRecipient.unmarshal (Json.str s) = .ok ⟨[], s⟩) ∧
    (∀ elems us, unmarshalUserElems elems = .ok us →
      DisplayRecipient.unmarshal (Json.arr elems) = .ok ⟨us, ""⟩) := by
  constructor
  · intro s; rfl
  · intro elems us h
    simp [DisplayRecipient.unmarshal, unmarshalString, unmarshalUsers, h]

/-- Claim C6 witness: a one-element array of user objects decodes to the
Users variant with empty Topic. -/
theorem displayRecipient_decode_variants_witness :
    DisplayRecipient.unmarshal (Json.arr [Json.obj [("email", Json.str "a@x.com")]])
      = .ok ⟨[⟨"", "a@x.com", "", 0, false, ""⟩], ""⟩ :=
  displayRecipient_decode_variants.2 [Json.obj [("email", Json.str "a@x.com")]]
    [⟨"", "a@x.com", "", 0, false, ""⟩] rfl

/-- Claim C7: a Message with empty Content is rejected by Bot.Message with
the validation error, and the transport's Do is never invoked (the outcome
is an error, not a send). -/
theorem message_empty_content (b : Bot) (m : Message) (h : m.Content = "") :
    b.message m = .error "content cannot be empty" := by
  simp [Bot.message, h]

/-- Claim C7 witness: a concrete stream-shaped message with empty content
is rejected before the transport. -/
theorem message_empty_content_witness :
    Bot.message testBot ⟨"general", "t1", [], ""⟩ = .error "content cannot be empty" :=
  message_empty_content testBot ⟨"general", "t1", [], ""⟩ rfl

/-- Claim C8: with non-empty Emails and non-empty Content, Bot.Message
routes to PrivateMessage unconditionally and the send reaches the
transport; the empty-Stream and empty-Topic checks are never applied. -/
theorem message_routes_to_private (b : Bot) (m : Message)
    (he : m.Emails ≠ []) (hc : m.Content ≠ "") :
    b.message m = b.privateMessage m ∧
    b.message m = .send (constructMessageRequest m) := by
  have hl : m.Emails.length ≠ 0 := by simpa [List.length_eq_zero] using he
  constructor <;> simp [Bot.message, Bot.privateMessage, hc, hl]

/-- Claim C8 witness: a message with one email and empty Stream and Topic
still routes to the private path and reaches the transport. -/
theorem message_routes_to_private_witness :
    Bot.message testBot ⟨"", "", ["a@x.com"], "hi"⟩
        = Bot.privateMessage testBot ⟨"", "", ["a@x.com"], "hi"⟩ ∧
      Bot.message testBot ⟨"", "", ["a@x.com"], "hi"⟩
        = .send (constructMessageRequest ⟨"", "", ["a@x.com"], "hi"⟩) :=
  message_routes_to_private testBot ⟨"", "", ["a@x.com"], "hi"⟩ (by decide) (by decide)

/-- Claim C9: when every event before some failing one decodes and that
event's message fails with an error, ParseEventMessages returns exactly
that first error and no list of messages. -/
theorem parseEventMessages_first_error (good : List (List (String × Json)))
    (bad : List (String × Json)) (rest : List (List (String × Json))) (err : String)
    (hg : ∀ ev ∈ good, ∃ msg, decodeEventObj ev = .ok msg)
    (hb : decodeEventObj bad = .error err) :
    parseEventMessages (Json.obj [("events", Json.arr ((good ++ bad :: rest).map Json.obj))])
      = .error err := by
  have hraw := unmarshalRawObjs_map_obj (good ++ bad :: rest)
  have hdec := decodeEvents_first_error good bad rest err hg hb
  simp only [List.map_append, List.map_cons] at hraw
  simp [parseEventMessages, jsonLookup, unmarshalEventsField, hraw, hdec]

/-- Claim C9 witness: a batch whose first event decodes and whose second
event's message is a JSON string fails with that second decode's error and
yields no messages. -/
theorem parseEventMessages_first_error_witness :
    parseEventMessages (Json.obj [("events", Json.arr
        [Json.obj [("message", Json.null)], Json.obj [("message", Json.str "x")]])])
      = .error "json: cannot unmarshal value into Go value of type gozulipbot.EventMessage" :=
  parseEventMessages_first_error [[("message", Json.null)]] [("message", Json.str "x")] []
    "json: cannot unmarshal value into Go value of type gozulipbot.EventMessage"
    (by
      intro ev hev
      rw [List.mem_singleton.mp hev]
      exact ⟨EventMessage.zero, rfl⟩)
    rfl

/-- Claim C10: PrivateMessage called directly with non-empty Emails applies
no Content validation: even with empty Content it constructs the request
and invokes the transport's Do. -/
theorem privateMessage_skips_content_validation (b : Bot) (m : Message)
    (he : m.Emails ≠ []) (_hc : m.Content = "") :
    b.privateMessage m = .send (constructMessageRequest m) := by
  have hl : m.Emails.length ≠ 0 := by simpa [List.length_eq_zero] using he
  simp [Bot.privateMessage, hl]

/-- Claim C10 witness: a concrete message with one email and empty content
is sent to the transport by PrivateMessage without validation. -/
theorem privateMessage_skips_content_validation_witness :
    Bot.privateMessage testBot ⟨"", "", ["a@x.com"], ""⟩
      = .send (constructMessageRequest ⟨"", "", ["a@x.com"], ""⟩) :=
  privateMessage_skips_content_validation testBot ⟨"", "", ["a@x.com"], ""⟩ (by decide) rfl

end Gozulipbot
